import Mathlib

/-
Verification development for the POLIS prediction-market system.

Shallow embedding of:
- `PolisMarket.sol` — the constant-product AMM binary market (pools, trading,
  conviction recording, resolution, redemption).  Solidity `uint256` values are
  modelled as `Nat`; every `require` and every subtraction that can actually
  underflow (and so revert) in checked Solidity 0.8 arithmetic is modelled as an
  explicit guard returning an `Except` error, so that a failing operation leaves
  the state unchanged, exactly as a reverting transaction does.  Subtractions
  that provably cannot underflow on any input reaching them are left as `Nat`
  subtraction (noted inline).  Access control (`onlyFactory`) and event
  emission are not modelled; `msg.value` / `address(this).balance` are modelled
  by an explicit `value` argument and a `balance` field.
- `conviction.js` — the ConvictionMarket consensus registry.  A JavaScript
  `Map` is an insertion-ordered key-value list whose `set` overwrites in place;
  it is modelled as an association list.  JavaScript numbers are modelled as
  `ℚ` where fractional values occur (raw scores, means) and as `Nat` where the
  source only ever stores clamped integers.
- the SentinelAgent risk evaluator (two variants present in the source tree);
  its score/rationale computation is embedded as a pure function of the
  sentinel state and the proposal data.
-/

namespace Polis

/-- JavaScript `String.prototype.trim`, restricted to whitespace as recognised
by `Char.isWhitespace`: drop leading and trailing whitespace. -/
def jsTrim (s : String) : String :=
  ⟨((s.data.dropWhile Char.isWhitespace).reverse.dropWhile Char.isWhitespace).reverse⟩

/-- JavaScript `Math.round` on a non-negative number: round half up. -/
def jsRound (q : ℚ) : ℤ := ⌊q + 1/2⌋

deriving instance DecidableEq for Except

namespace PolisMarket

/-- Outcome enum of `PolisMarket.sol`. -/
inductive Outcome
  | UNRESOLVED
  | YES
  | NO
  | INVALID
deriving DecidableEq

/-- A user position: `struct Position { uint256 yesShares; uint256 noShares; }`. -/
structure Position where
  yesShares : Nat
  noShares : Nat
deriving DecidableEq

/-- The mutable state of one `PolisMarket` contract.  Inert metadata fields
(question, resolutionCriteria, feedId, category, confidenceScore) are omitted:
no operation reads them.  `balance` is `address(this).balance`. -/
structure State where
  outcome : Outcome
  yesPool : Nat
  noPool : Nat
  totalDeposited : Nat
  positions : String → Position
  agentConvictions : String → Nat
  convictionVoters : List String
  strikePrice : Nat
  isAboveStrike : Bool
  expiryTimestamp : Nat
  resolutionTimestamp : Nat
  balance : Nat

/-- Revert reasons of `PolisMarket.sol`.  `Underflow` stands for the checked
arithmetic panic of Solidity 0.8 on a subtraction that would go negative;
`DivisionByZero` for the division-by-zero panic. -/
inductive Err
  | MarketResolved
  | MarketExpired
  | MustSendValue
  | SlippageExceeded
  | InsufficientShares
  | InsufficientPool
  | Underflow
  | DivisionByZero
  | TransferFailed
  | TooEarly
  | AlreadyResolved
  | NotResolved
  | NothingToRedeem
  | ScoreOutOfRange
deriving DecidableEq

/-- `uint256 public constant LIQUIDITY_PARAM = 1000e18`. -/
def LIQUIDITY_PARAM : Nat := 1000 * 10 ^ 18

/-- The factory-called setup of a fresh market: both pools start equal at
`LIQUIDITY_PARAM` (50/50 odds), everything else empty/zero. -/
def mkMarket (strike : Nat) (isAbove : Bool) (expiry resolution : Nat) : State :=
  { outcome := Outcome.UNRESOLVED
    yesPool := LIQUIDITY_PARAM
    noPool := LIQUIDITY_PARAM
    totalDeposited := 0
    positions := fun _ => ⟨0, 0⟩
    agentConvictions := fun _ => 0
    convictionVoters := []
    strikePrice := strike
    isAboveStrike := isAbove
    expiryTimestamp := expiry
    resolutionTimestamp := resolution
    balance := 0 }

/-- `receive() external payable` — the contract accepts ETH (liquidity seeding). -/
def receiveEth (s : State) (amount : Nat) : State :=
  { s with balance := s.balance + amount }

/-- `getSaleReturn(bool _isYes, uint256 _shares)` exactly as in the source:
`k = yesPool * noPool`; for YES it requires `yesPool > _shares`, sets
`newPool = yesPool - _shares`, `otherPool = k / newPool` and returns
`otherPool - noPool` (mirror for NO).  The final subtraction cannot underflow:
`k / (yesPool - _shares) ≥ k / yesPool = noPool`. -/
def getSaleReturn (s : State) (isYes : Bool) (shares : Nat) : Except Err Nat :=
  let k := s.yesPool * s.noPool
  if isYes then
    if shares < s.yesPool then
      let newPool := s.yesPool - shares
      let otherPool := k / newPool
      .ok (otherPool - s.noPool)
    else .error .InsufficientPool
  else
    if shares < s.noPool then
      let newPool := s.noPool - shares
      let otherPool := k / newPool
      .ok (otherPool - s.yesPool)
    else .error .InsufficientPool

/-- Follows the spec text (§4.3), for comparison with `getSaleReturn`:
"To sell `s` YES shares: `newYesPool = yesPool + s`; `newNoPool = k / newYesPool`;
payout = `noPool - newNoPool`" (mirror for NO), failing `InsufficientPool` if the
requested amount would not leave a positive pool. -/
def getSaleReturnSpec (s : State) (isYes : Bool) (shares : Nat) : Except Err Nat :=
  let k := s.yesPool * s.noPool
  if isYes then
    let newYesPool := s.yesPool + shares
    let newNoPool := k / newYesPool
    if newNoPool = 0 then .error .InsufficientPool
    else .ok (s.noPool - newNoPool)
  else
    let newNoPool := s.noPool + shares
    let newYesPool := k / newNoPool
    if newYesPool = 0 then .error .InsufficientPool
    else .ok (s.yesPool - newYesPool)

/-- `_calculateSharesForDeposit(bool _isYes, uint256 _deposit)`:
for YES, `newNoPool = noPool + _deposit`, `newYesPool = k / newNoPool`,
shares received `= yesPool - newYesPool` (mirror for NO).  The subtraction
cannot underflow since `k / (noPool + _deposit) ≤ k / noPool ≤ yesPool`. -/
def _calculateSharesForDeposit (s : State) (isYes : Bool) (deposit : Nat) : Nat :=
  let k := s.yesPool * s.noPool
  if isYes then
    let newNoPool := s.noPool + deposit
    let newYesPool := k / newNoPool
    s.yesPool - newYesPool
  else
    let newYesPool := s.yesPool + deposit
    let newNoPool := k / newYesPool
    s.noPool - newNoPool

/-- `buyShares(bool _isYes, uint256 _minShares)` with `msg.value = value`,
guarded by `onlyActive` (market unresolved and not expired).  Returns the
shares bought together with the new state.  Note the pool the buyer receives
from is reduced by `shares` with no positivity requirement.  `msg.value` is
credited to the contract balance by the EVM before the body runs. -/
def buyShares (s : State) (now : Nat) (sender : String) (isYes : Bool)
    (minShares value : Nat) : Except Err (Nat × State) :=
  if s.outcome ≠ Outcome.UNRESOLVED then .error .MarketResolved
  else if ¬ now < s.expiryTimestamp then .error .MarketExpired
  else if value = 0 then .error .MustSendValue
  else
    let shares := _calculateSharesForDeposit s isYes value
    if shares < minShares then .error .SlippageExceeded
    else if isYes then
      .ok (shares,
        { s with
          noPool := s.noPool + value
          yesPool := s.yesPool - shares
          positions := fun a =>
            if a = sender then
              { s.positions a with yesShares := (s.positions a).yesShares + shares }
            else s.positions a
          totalDeposited := s.totalDeposited + value
          balance := s.balance + value })
    else
      .ok (shares,
        { s with
          yesPool := s.yesPool + value
          noPool := s.noPool - shares
          positions := fun a =>
            if a = sender then
              { s.positions a with noShares := (s.positions a).noShares + shares }
            else s.positions a
          totalDeposited := s.totalDeposited + value
          balance := s.balance + value })

/-- `sellShares(bool _isYes, uint256 _shares, uint256 _minReturn)`, guarded by
`onlyActive`.  After the payout quote, the source runs `noPool -= payout` and
`totalDeposited -= payout` (checked subtractions that revert on underflow,
modelled as `Underflow`) and transfers `payout` to the seller (`TransferFailed`
when the contract balance cannot cover it).  Returns the payout and new state. -/
def sellShares (s : State) (now : Nat) (sender : String) (isYes : Bool)
    (shares minReturn : Nat) : Except Err (Nat × State) :=
  if s.outcome ≠ Outcome.UNRESOLVED then .error .MarketResolved
  else if ¬ now < s.expiryTimestamp then .error .MarketExpired
  else if isYes ∧ (s.positions sender).yesShares < shares then .error .InsufficientShares
  else if ¬ isYes ∧ (s.positions sender).noShares < shares then .error .InsufficientShares
  else
    match getSaleReturn s isYes shares with
    | .error e => .error e
    | .ok payout =>
      if payout < minReturn then .error .SlippageExceeded
      else if isYes then
        if s.noPool < payout then .error .Underflow
        else if s.totalDeposited < payout then .error .Underflow
        else if s.balance < payout then .error .TransferFailed
        else
          .ok (payout,
            { s with
              yesPool := s.yesPool + shares
              noPool := s.noPool - payout
              positions := fun a =>
                if a = sender then
                  { s.positions a with yesShares := (s.positions a).yesShares - shares }
                else s.positions a
              totalDeposited := s.totalDeposited - payout
              balance := s.balance - payout })
      else
        if s.yesPool < payout then .error .Underflow
        else if s.totalDeposited < payout then .error .Underflow
        else if s.balance < payout then .error .TransferFailed
        else
          .ok (payout,
            { s with
              noPool := s.noPool + shares
              yesPool := s.yesPool - payout
              positions := fun a =>
                if a = sender then
                  { s.positions a with noShares := (s.positions a).noShares - shares }
                else s.positions a
              totalDeposited := s.totalDeposited - payout
              balance := s.balance - payout })

/-- `recordConviction(address _agent, uint8 _score)`: requires `_score <= 100`;
pushes the agent onto `convictionVoters` when the agent's currently stored
conviction is zero (the mapping default), then stores the score. -/
def recordConviction (s : State) (agent : String) (score : Nat) : Except Err State :=
  if 100 < score then .error .ScoreOutOfRange
  else
    .ok { s with
      convictionVoters :=
        if s.agentConvictions agent = 0 then s.convictionVoters ++ [agent]
        else s.convictionVoters
      agentConvictions := fun a => if a = agent then score else s.agentConvictions a }

/-- `getAggregateConviction()`: `(0,0)` when there are no voters, otherwise the
integer average over the (possibly duplicated) `convictionVoters` entries and
their count. -/
def getAggregateConviction (s : State) : Nat × Nat :=
  let voterCount := s.convictionVoters.length
  if voterCount = 0 then (0, 0)
  else ((s.convictionVoters.map s.agentConvictions).sum / voterCount, voterCount)

/-- `resolve(uint256 _resolvedPrice)`, guarded by `onlyExpired`
(`block.timestamp >= resolutionTimestamp` and outcome still `UNRESOLVED`):
YES iff the settlement price is on the stored side of the strike. -/
def resolve (s : State) (now price : Nat) : Except Err State :=
  if now < s.resolutionTimestamp then .error .TooEarly
  else if s.outcome ≠ Outcome.UNRESOLVED then .error .AlreadyResolved
  else
    .ok { s with outcome :=
      if s.isAboveStrike then
        (if s.strikePrice ≤ price then Outcome.YES else Outcome.NO)
      else
        (if price < s.strikePrice then Outcome.YES else Outcome.NO) }

/-- `resolveInvalid()`: factory-only emergency override.  The source has no
state guard at all — it sets the outcome to `INVALID` unconditionally. -/
def resolveInvalid (s : State) : State :=
  { s with outcome := Outcome.INVALID }

/-- The payout computation of `redeem()`: requires a resolved market;
INVALID pays `(yesShares + noShares) * balance / (yesPool + noPool)`
(division by zero panics when both pools are zero), YES pays `yesShares`
1:1, NO pays `noShares` 1:1. -/
def redeemPayout (s : State) (sender : String) : Except Err Nat :=
  if s.outcome = Outcome.UNRESOLVED then .error .NotResolved
  else if s.outcome = Outcome.INVALID then
    if s.yesPool + s.noPool = 0 then .error .DivisionByZero
    else
      .ok (((s.positions sender).yesShares + (s.positions sender).noShares)
        * s.balance / (s.yesPool + s.noPool))
  else if s.outcome = Outcome.YES then .ok (s.positions sender).yesShares
  else .ok (s.positions sender).noShares

/-- `redeem()`: computes the payout, requires it positive (`NothingToRedeem`),
clears the caller's position to zero, caps the payout at the contract balance
and transfers it.  Returns the transferred amount and the new state. -/
def redeem (s : State) (sender : String) : Except Err (Nat × State) :=
  match redeemPayout s sender with
  | .error e => .error e
  | .ok payout =>
    if payout = 0 then .error .NothingToRedeem
    else
      let paid := if s.balance < payout then s.balance else payout
      .ok (paid,
        { s with
          positions := fun a => if a = sender then ⟨0, 0⟩ else s.positions a
          balance := s.balance - paid })

end PolisMarket

namespace ConvictionMarket

/-- A recorded vote: clamped integer score, rationale, timestamp. -/
structure Vote where
  score : Nat
  reasoning : String
  timestamp : Nat
deriving DecidableEq

/-- JavaScript `Map.get`. -/
def mapGet {α : Type} : List (String × α) → String → Option α
  | [], _ => none
  | (k', v) :: rest, k => if k' = k then some v else mapGet rest k

/-- JavaScript `Map.set`: overwrite in place when the key is present
(insertion order preserved), append otherwise. -/
def mapSet {α : Type} : List (String × α) → String → α → List (String × α)
  | [], k, v => [(k, v)]
  | (k', v') :: rest, k, v =>
    if k' = k then (k, v) :: rest else (k', v') :: mapSet rest k v

/-- JavaScript `Map.has`. -/
def mapHas {α : Type} (m : List (String × α)) (k : String) : Bool :=
  (mapGet m k).isSome

/-- Proposal status strings of `conviction.js`. -/
inductive Status
  | pending
  | approved
  | rejected
  | expired
deriving DecidableEq

/-- The `proposal.consensus` record: reported average (rounded to one decimal),
voter count, approval flag, and the vote snapshot (agent, score, reasoning). -/
structure Consensus where
  avgScore : ℚ
  voterCount : Nat
  approved : Bool
  votes : List (String × Nat × String)
deriving DecidableEq

/-- A proposal of `conviction.js`.  The opaque `data` payload is omitted;
`ptype` is the `type` string tag. -/
structure Proposal where
  id : String
  ptype : String
  proposer : String
  votes : List (String × Vote)
  status : Status
  createdAt : Nat
  resolvedAt : Option Nat
  consensus : Option Consensus
deriving DecidableEq

/-- The ConvictionMarket state: proposal map, consensus history (recorded here
as id and consensus of each finalized proposal), threshold 60, quorum 4. -/
structure CM where
  proposals : List (String × Proposal)
  history : List (String × Option Consensus)
  consensusThreshold : Nat
  minVoters : Nat

/-- A fresh `ConvictionMarket` (threshold 60, quorum 4, as in the constructor). -/
def mkCM : CM := ⟨[], [], 60, 4⟩

/-- `score = Math.max(0, Math.min(100, Math.round(score)))`. -/
def clampScore (raw : ℚ) : Nat := (max 0 (min 100 (jsRound raw))).toNat

/-- `createProposal(id, type, data, proposer)`: status `pending`, empty votes. -/
def createProposal (cm : CM) (id ptype proposer : String) (now : Nat) : Proposal × CM :=
  let p : Proposal :=
    { id := id, ptype := ptype, proposer := proposer, votes := []
      status := Status.pending, createdAt := now, resolvedAt := none, consensus := none }
  (p, { cm with proposals := mapSet cm.proposals id p })

/-- The consensus computation of `resolveConsensus`: unrounded mean
`avgScore = sum / count` decides `approved = avgScore >= threshold`; the stored
`avgScore` is `Math.round(avgScore * 10) / 10`; the stored votes drop
timestamps. -/
def consensusOf (threshold : Nat) (votes : List (String × Vote)) : Consensus :=
  let scores : List Nat := votes.map (fun v => v.2.score)
  let total : Nat := scores.sum
  let avgScore : ℚ := (total : ℚ) / (scores.length : ℚ)
  { avgScore := (jsRound (avgScore * 10) : ℚ) / 10
    voterCount := scores.length
    approved := decide ((threshold : ℚ) ≤ avgScore)
    votes := votes.map (fun v => (v.1, v.2.score, v.2.reasoning)) }

/-- The integer score list of a vote map (abbreviation used by the theorems). -/
def scoresOf (votes : List (String × Vote)) : List Nat :=
  votes.map (fun v => v.2.score)

/-- Result of `vote`: `null`, a pending status with `votesNeeded`, or the
consensus object returned by `resolveConsensus`. -/
inductive VoteResult
  | null
  | pending (votesNeeded : Nat)
  | consensus (c : Consensus)
deriving DecidableEq

/-- `resolveConsensus(proposalId)`: recompute from the stored votes, set the
status to approved/rejected, stamp `resolvedAt`, store and return the
consensus, and push the proposal onto the history. -/
def resolveConsensus (cm : CM) (proposalId : String) (now : Nat) : VoteResult × CM :=
  match mapGet cm.proposals proposalId with
  | none => (VoteResult.null, cm)
  | some p =>
    let c := consensusOf cm.consensusThreshold p.votes
    let p2 := { p with
      status := if c.approved then Status.approved else Status.rejected
      resolvedAt := some now
      consensus := some c }
    (VoteResult.consensus c,
      { cm with
        proposals := mapSet cm.proposals proposalId p2
        history := cm.history ++ [(p2.id, p2.consensus)] })

/-- `vote(proposalId, agentName, score, reasoning)`: `null` (state untouched)
for an unknown or finalized proposal; otherwise clamp the score, overwrite the
agent's entry in the vote map, and either finalize (when the distinct vote
count has reached `minVoters`) or report pending with the votes still needed. -/
def vote (cm : CM) (proposalId agentName : String) (rawScore : ℚ)
    (reasoning : String) (now : Nat) : VoteResult × CM :=
  match mapGet cm.proposals proposalId with
  | none => (VoteResult.null, cm)
  | some p =>
    if p.status ≠ Status.pending then (VoteResult.null, cm)
    else
      let score := clampScore rawScore
      let p2 := { p with votes := mapSet p.votes agentName ⟨score, reasoning, now⟩ }
      let cm2 := { cm with proposals := mapSet cm.proposals proposalId p2 }
      if cm2.minVoters ≤ p2.votes.length then
        resolveConsensus cm2 proposalId now
      else
        (VoteResult.pending (cm2.minVoters - p2.votes.length), cm2)

end ConvictionMarket

namespace SentinelAgent

/-- The proposal `data` fields read by the sentinel.  A `currentPrice` or
`strikePrice` of 0 plays the role of a JavaScript falsy value (absent feed
data); `feedId := none` likewise. -/
structure ProposalData where
  question : String
  durationMinutes : ℚ
  currentPrice : ℚ
  strikePrice : ℚ
  feedId : Option String
deriving DecidableEq

/-- Sentinel state: circuit breaker flag, hourly deployment counter with its
lazy reset timestamp, and (first variant only) the recent per-asset risk
window as (feedId, timestamp) pairs. -/
structure Sentinel where
  circuitBroken : Bool
  marketsDeployedLastHour : Nat
  lastHourReset : Nat
  recentRisks : List (Option String × Nat)
deriving DecidableEq

/-- `question.split("").reduce((a, c) => a + c.charCodeAt(0), 0)` — the sum of
the question's character codes (UTF-16 units agree with code points on the
basic plane; all source questions are ASCII). -/
def seedOf (q : String) : Nat := (q.data.map Char.toNat).sum

/-- The score/rationale computation of `voteOnProposal` in the first
SentinelAgent variant: start at 75; rate-limit, duration, strike-distance,
question-quality and asset-concentration adjustments; circuit breaker forces
score 0 and rationale "CIRCUIT BREAKER ACTIVE"; then the content-seeded
per-proposal variance `((seed * 11) % 9) - 4` is added and the result clamped
to `[0, 95]`. -/
def assessV1 (st : Sentinel) (data : ProposalData) (now : Nat) : Int × String :=
  let score : Int := 75
  let reasoning : String := ""
  let m := if 3600000 < now - st.lastHourReset then 0 else st.marketsDeployedLastHour
  let (score, reasoning) :=
    if 20 < m then (score - 40, reasoning ++ "Severe rate limit concern. ")
    else if 12 < m then (score - 25, reasoning ++ "Rate limit concern. ")
    else if 6 < m then (score - 12, reasoning ++ "Moderate rate. ")
    else (score + 5, reasoning ++ "Healthy creation rate. ")
  let (score, reasoning) :=
    if data.durationMinutes < 10 then (score - 30, reasoning ++ "Duration dangerously short. ")
    else if data.durationMinutes < 20 then (score - 15, reasoning ++ "Duration somewhat short. ")
    else if 360 < data.durationMinutes then (score - 12, reasoning ++ "Long duration. ")
    else if 30 ≤ data.durationMinutes ∧ data.durationMinutes ≤ 120 then
      (score + 8, reasoning ++ "Duration within ideal range. ")
    else (score, reasoning)
  let (score, reasoning) :=
    if data.currentPrice ≠ 0 ∧ data.strikePrice ≠ 0 then
      let distance := |data.currentPrice - data.strikePrice| / data.currentPrice
      if 0.2 < distance then (score - 20, reasoning ++ "Extreme strike distance. ")
      else if 0.1 < distance then (score - 10, reasoning ++ "Wide strike. ")
      else if distance < 0.001 then (score - 12, reasoning ++ "Trivial market. ")
      else if distance < 0.03 then
        (score + 8, reasoning ++ "Strike is well-placed near current price. ")
      else (score + 3, reasoning ++ "Reasonable strike distance. ")
    else (score, reasoning)
  let (score, reasoning) :=
    if data.question = "" ∨ data.question.length < 20 then
      (score - 15, reasoning ++ "Question too short. ")
    else (score, reasoning)
  let (score, reasoning) :=
    match data.feedId with
    | some fid =>
      let sameFeedAlerts := (st.recentRisks.filter (fun r => r.1 = some fid)).length
      if 3 < sameFeedAlerts then
        (score - 10, reasoning ++ "Concentration risk: too many markets on same asset. ")
      else (score, reasoning)
    | none => (score, reasoning)
  let (score, reasoning) :=
    if st.circuitBroken then ((0 : Int), "CIRCUIT BREAKER ACTIVE")
    else (score, reasoning)
  let score := score + (((seedOf data.question : Int) * 11) % 9 - 4)
  let score := max 0 (min 95 score)
  (score, jsTrim reasoning)

/-- The score/rationale computation of `voteOnProposal` in the second
SentinelAgent variant: start at 70; rate-limit, duration, strike-distance and
question-quality adjustments; circuit breaker forces score 0 and rationale
"CIRCUIT BREAKER ACTIVE"; clamp to `[0, 95]` (no content-seeded variance). -/
def assessV2 (st : Sentinel) (data : ProposalData) (now : Nat) : Int × String :=
  let score : Int := 70
  let reasoning : String := ""
  let m := if 3600000 < now - st.lastHourReset then 0 else st.marketsDeployedLastHour
  let (score, reasoning) :=
    if 10 < m then (score - 30, reasoning ++ "Rate limit concern. ")
    else if 5 < m then (score - 10, reasoning ++ "Moderate rate. ")
    else (score, reasoning)
  let (score, reasoning) :=
    if data.durationMinutes < 10 then (score - 25, reasoning ++ "Duration too short. ")
    else if 360 < data.durationMinutes then (score - 10, reasoning ++ "Long duration. ")
    else (score + 5, reasoning ++ "Duration within safe range. ")
  let (score, reasoning) :=
    if data.currentPrice ≠ 0 ∧ data.strikePrice ≠ 0 then
      let distance := |data.currentPrice - data.strikePrice| / data.currentPrice
      if 0.2 < distance then (score - 15, reasoning ++ "Extreme strike. ")
      else if distance < 0.001 then (score - 10, reasoning ++ "Trivial market. ")
      else (score + 5, reasoning ++ "Good strike distance. ")
    else (score, reasoning)
  let (score, reasoning) :=
    if data.question = "" ∨ data.question.length < 20 then
      (score - 15, reasoning ++ "Question too short. ")
    else (score, reasoning)
  let (score, reasoning) :=
    if st.circuitBroken then ((0 : Int), "CIRCUIT BREAKER ACTIVE")
    else (score, reasoning)
  let score := max 0 (min 95 score)
  (score, jsTrim reasoning)

end SentinelAgent

end Polis

namespace Polis.PolisMarket

/-- A freshly set-up market: pools `1000e18 / 1000e18`, trading open until
time 1000, resolvable from time 500. -/
def baseMarket : State := mkMarket 0 true 1000 500

/-- Alice buys `10^20` (0.1 pool units) worth of YES shares on the fresh market. -/
def c1AfterBuy : Except Err (Nat × State) :=
  buyShares baseMarket 0 "alice" true 0 (10 ^ 20)

/-- ... and then sells `4 * 10^19` of the YES shares she received. -/
def c1AfterSell : Except Err (Nat × State) :=
  c1AfterBuy.bind (fun p => sellShares p.2 0 "alice" true (4 * 10 ^ 19) 0)

/-- Round trip on a market with prior trading volume: Bob buys `10^20` of YES,
then Alice buys `10^20` of YES, then Alice immediately sells the exact share
count she received.  Returns (Alice's shares, Alice's sale payout). -/
def c6Run : Except Err (Nat × Nat) :=
  (buyShares baseMarket 0 "bob" true 0 (10 ^ 20)).bind (fun pb =>
    (buyShares pb.2 0 "alice" true 0 (10 ^ 20)).bind (fun pa =>
      (sellShares pa.2 0 "alice" true pa.1 0).map (fun pr => (pa.1, pr.1))))

/-- A market resolved INVALID with untouched pools, remaining balance `10^20`,
and two holders with equal positions of `5 * 10^19` YES shares each. -/
def cx7 : State :=
  { mkMarket 0 true 1000 500 with
    outcome := Outcome.INVALID
    balance := 10 ^ 20
    positions := fun a => if a = "alice" ∨ a = "bob" then ⟨5 * 10 ^ 19, 0⟩ else ⟨0, 0⟩ }

/-- The state of `cx7` after Alice has redeemed. -/
def cx7After : State :=
  match redeem cx7 "alice" with
  | .ok p => p.2
  | .error _ => cx7

/-- A market (strike 100, resolves YES when price ≥ strike) resolved at time 6
with settlement price 150. -/
def c3AfterResolve : Except Err State := resolve (mkMarket 100 true 10 5) 6 150

/-- ... on which the emergency override is then called. -/
def c3AfterInvalid : Except Err State := c3AfterResolve.map resolveInvalid

/-- The sentinel agent votes 0 and then 50 on the same market contract. -/
def c10Run : Except Err State :=
  (recordConviction baseMarket "sentinel" 0).bind
    (fun s => recordConviction s "sentinel" 50)

/-- A market resolved YES whose holder owns `{yesShares: 5, noShares: 3}` and
whose remaining balance is 100. -/
def cx9 : State :=
  { mkMarket 0 true 1000 500 with
    outcome := Outcome.YES
    balance := 100
    positions := fun a => if a = "holder" then ⟨5, 3⟩ else ⟨0, 0⟩ }

/-- A market resolved INVALID where one holder holds `LIQUIDITY_PARAM` total
shares, so that twice the holding equals `yesPool + noPool`. -/
def cx7Half : State :=
  { mkMarket 0 true 1000 500 with
    outcome := Outcome.INVALID
    balance := 100
    positions := fun a => if a = "alice" then ⟨LIQUIDITY_PARAM, 0⟩ else ⟨0, 0⟩ }

/-- A market resolved NO (for the amended outcome-machine witness). -/
def cx3Resolved : State :=
  { mkMarket 100 true 10 5 with outcome := Outcome.NO }

end Polis.PolisMarket

namespace Polis.ConvictionMarket

/-- A pending proposal with three recorded evaluator votes. -/
def pW : Proposal :=
  { id := "p1"
    ptype := "create_market"
    proposer := "scout"
    votes := [("architect", ⟨80, "ok", 1⟩), ("marketmaker", ⟨70, "ok", 2⟩),
              ("oracle", ⟨65, "ok", 3⟩)]
    status := Status.pending
    createdAt := 0
    resolvedAt := none
    consensus := none }

/-- A registry (threshold 60, quorum 4) holding just `pW`. -/
def cmW : CM :=
  { proposals := [("p1", pW)]
    history := []
    consensusThreshold := 60
    minVoters := 4 }

/-- The same registry with only two votes recorded on the proposal. -/
def cmW2 : CM :=
  { proposals := [("p1", { pW with votes := pW.votes.take 2 })]
    history := []
    consensusThreshold := 60
    minVoters := 4 }

/-- The spec's consensus example `{90, 90, 90, 10}` as a vote map. -/
def exHigh : List (String × Vote) :=
  [("architect", ⟨90, "", 0⟩), ("marketmaker", ⟨90, "", 0⟩),
   ("oracle", ⟨90, "", 0⟩), ("sentinel", ⟨10, "", 0⟩)]

/-- The spec's consensus example `{50, 50, 50, 50}` as a vote map. -/
def exFlat : List (String × Vote) :=
  [("architect", ⟨50, "", 0⟩), ("marketmaker", ⟨50, "", 0⟩),
   ("oracle", ⟨50, "", 0⟩), ("sentinel", ⟨50, "", 0⟩)]

end Polis.ConvictionMarket

namespace Polis.SentinelAgent

/-- A sentinel whose circuit breaker is tripped. -/
def cx8st : Sentinel := ⟨true, 0, 0, []⟩

/-- Proposal data with the one-character question "a" (character code 97) and
no price feed information. -/
def cx8data : ProposalData := ⟨"a", 60, 0, 0, none⟩

end Polis.SentinelAgent

namespace Polis.ConvictionMarket

/-- Looking up a key right after setting it returns the value just set
(JavaScript `Map` semantics of the association-list model). -/
theorem mapGet_mapSet_self {α : Type} (m : List (String × α)) (k : String) (v : α) :
    mapGet (mapSet m k v) k = some v := by
  induction m with
  | nil => simp [mapSet, mapGet]
  | cons hd tl ih =>
    obtain ⟨k', v'⟩ := hd
    by_cases hk : k' = k
    · simp [mapSet, hk, mapGet]
    · simp [mapSet, hk, mapGet, ih]

/-- C4: for a proposal that reaches quorum, `approved` is exactly "unrounded
mean ≥ threshold 60" (equivalently `60 * count ≤ sum`, so the one-decimal
rounding plays no part in the decision), a mean exactly at the threshold
approves, the decision is invariant under permuting the votes, and on the two
spec examples: scores `{90,90,90,10}` give reported mean 70 and approval,
scores `{50,50,50,50}` give reported mean 50 and rejection. -/
theorem consensus_threshold_rule (votes : List (String × Vote)) (hq : 4 ≤ votes.length) :
    ((consensusOf 60 votes).approved = true ↔
      60 * votes.length ≤ (scoresOf votes).sum)
    ∧ (((scoresOf votes).sum : ℚ) / (votes.length : ℚ) = 60 →
        (consensusOf 60 votes).approved = true)
    ∧ (∀ votes2 : List (String × Vote), votes.Perm votes2 →
        (consensusOf 60 votes2).approved = (consensusOf 60 votes).approved)
    ∧ (consensusOf 60 exHigh).approved = true
    ∧ (consensusOf 60 exHigh).avgScore = 70
    ∧ (consensusOf 60 exFlat).approved = false
    ∧ (consensusOf 60 exFlat).avgScore = 50 := by
  have hn : 0 < votes.length := by omega
  have hlen : (0:ℚ) < (votes.length : ℚ) := by exact_mod_cast hn
  have hjHigh : jsRound (700 : ℚ) = 700 := by
    unfold jsRound
    rw [show ((700:ℚ) + 1/2) = 1401/2 by norm_num, Int.floor_eq_iff]
    constructor <;> norm_num
  have hjFlat : jsRound (500 : ℚ) = 500 := by
    unfold jsRound
    rw [show ((500:ℚ) + 1/2) = 1001/2 by norm_num, Int.floor_eq_iff]
    constructor <;> norm_num
  refine ⟨?_, ?_, ?_, ?_, ?_, ?_, ?_⟩
  · simp only [consensusOf, scoresOf, List.length_map, decide_eq_true_eq]
    rw [le_div_iff₀ hlen]
    constructor <;> intro h <;> exact_mod_cast h
  · intro hmean
    simp only [scoresOf] at hmean
    simp only [consensusOf, List.length_map, decide_eq_true_eq]
    rw [hmean]
    norm_num
  · intro votes2 hperm
    have hs : ((votes2.map fun v => v.2.score).sum) = ((votes.map fun v => v.2.score).sum) :=
      ((hperm.map _).sum_eq).symm
    have hl : votes2.length = votes.length := hperm.length_eq.symm
    simp only [consensusOf, List.length_map]
    rw [hs, hl]
  · simp only [consensusOf, exHigh, List.map_cons, List.map_nil, List.sum_cons,
      List.sum_nil, List.length_cons, List.length_nil, decide_eq_true_eq]
    norm_num
  · simp only [consensusOf, exHigh, List.map_cons, List.map_nil, List.sum_cons,
      List.sum_nil, List.length_cons, List.length_nil]
    norm_num
    rw [hjHigh]
    norm_num
  · simp only [consensusOf, exFlat, List.map_cons, List.map_nil, List.sum_cons,
      List.sum_nil, List.length_cons, List.length_nil, decide_eq_false_iff_not]
    norm_num
  · simp only [consensusOf, exFlat, List.map_cons, List.map_nil, List.sum_cons,
      List.sum_nil, List.length_cons, List.length_nil]
    norm_num
    rw [hjFlat]
    norm_num

/-- Witness for C4 at the two concrete spec vote sets. -/
theorem consensus_threshold_rule_witness :
    (consensusOf 60 exHigh).approved = true
    ∧ (consensusOf 60 exFlat).approved = false := by
  exact ⟨(consensus_threshold_rule exHigh (by decide)).2.2.2.1,
         (consensus_threshold_rule exFlat (by decide)).2.2.2.2.2.1⟩

/-- C5: with quorum 4, a vote on a finalized (non-pending) proposal returns
`null` and leaves the whole registry unchanged; a vote after which fewer than 4
distinct evaluators have voted (regardless of the score) returns a pending
status with the votes still needed and records only the vote; the vote that
brings the distinct evaluator count to 4 computes the consensus once, setting
the status to approved/rejected and storing the consensus permanently. -/
theorem quorum_gating (cm : CM) (hq : cm.minVoters = 4)
    (pid agent rsn : String) (raw : ℚ) (now : Nat) (p : Proposal)
    (nv : List (String × Vote))
    (hp : mapGet cm.proposals pid = some p)
    (hnv : nv = mapSet p.votes agent ⟨clampScore raw, rsn, now⟩) :
    (p.status ≠ Status.pending → vote cm pid agent raw rsn now = (VoteResult.null, cm))
    ∧ (p.status = Status.pending → nv.length < 4 →
        vote cm pid agent raw rsn now =
          (VoteResult.pending (4 - nv.length),
            { cm with proposals := mapSet cm.proposals pid { p with votes := nv } }))
    ∧ (p.status = Status.pending → 4 ≤ nv.length →
        vote cm pid agent raw rsn now =
          (VoteResult.consensus (consensusOf cm.consensusThreshold nv),
            { cm with
              proposals := mapSet (mapSet cm.proposals pid { p with votes := nv }) pid
                { p with
                  votes := nv
                  status :=
                    if (consensusOf cm.consensusThreshold nv).approved
                    then Status.approved else Status.rejected
                  resolvedAt := some now
                  consensus := some (consensusOf cm.consensusThreshold nv) }
              history := cm.history ++
                [(p.id, some (consensusOf cm.consensusThreshold nv))] })) := by
  refine ⟨?_, ?_, ?_⟩
  · intro hns
    simp only [vote, hp]
    rw [if_pos hns]
  · intro hs hlt
    simp only [vote, hp, ← hnv]
    rw [if_neg (by simp [hs])]
    rw [if_neg (by simp only [hq]; omega)]
    simp [hq]
  · intro hs hge
    simp only [vote, hp, ← hnv]
    rw [if_neg (by simp [hs])]
    rw [if_pos (by simp only [hq]; omega)]
    simp only [resolveConsensus, mapGet_mapSet_self]

/-- Witness for C5: the 4th distinct vote on `cmW` finalizes (history grows to
one entry); a 3rd distinct vote on `cmW2` only reports pending with one vote
still needed. -/
theorem quorum_gating_witness :
    (vote cmW "p1" "sentinel" 85 "ok" 4).2.history.length = 1
    ∧ (vote cmW2 "p1" "sentinel" 85 "ok" 4).1 = VoteResult.pending 1 := by
  have h1 := (quorum_gating cmW rfl "p1" "sentinel" "ok" 85 4 pW _ (by decide) rfl).2.2
    rfl (by decide)
  have h2 := (quorum_gating cmW2 rfl "p1" "sentinel" "ok" 85 4
    { pW with votes := pW.votes.take 2 } _ (by decide) rfl).2.1 rfl (by decide)
  constructor
  · rw [h1]
    rfl
  · rw [h2]
    rfl

end Polis.ConvictionMarket

namespace Polis.PolisMarket

/-- C1: the claim says `yesPool * noPool` is preserved (within rounding) by
every valid buy/sell and that invariant-violating operations are rejected.
Evaluating the code: from a fresh market, a valid buy of `10^20` YES value
followed by a valid sell of `4·10^19` YES shares succeeds (is not rejected),
yet the product drops from `909090909090909090909 * 1100000000000000000000`
to `949090909090909090909 * 1049372384937238493724` — a deficit more than
1000 times the integer-rounding slack of one pool-sum unit. -/
theorem amm_invariant_broken_by_sell :
    c1AfterBuy.map (fun p => (p.2.yesPool, p.2.noPool)) =
      .ok (909090909090909090909, 1100000000000000000000)
    ∧ c1AfterSell.map (fun p => (p.1, p.2.yesPool, p.2.noPool)) =
      .ok (50627615062761506276, 949090909090909090909, 1049372384937238493724)
    ∧ 949090909090909090909 * 1049372384937238493724
        + 1000 * (909090909090909090909 + 1100000000000000000000)
      < 909090909090909090909 * 1100000000000000000000 := by
  decide

/-- C2: the claim states the sale payout `noPool - k/(yesPool + s)` and an
`InsufficientPool` failure whenever a trade would not leave a positive pool.
Evaluating the code on the fresh market: `getSaleReturn` pays
`k/(yesPool - s) - noPool = 111111111111111111111` where the claimed formula
gives `90909090909090909091`; and a YES buy of `10^42` succeeds while driving
`yesPool` to exactly 0 instead of failing with `InsufficientPool`. -/
theorem sale_formula_and_pool_guard_diverge :
    getSaleReturn baseMarket true (10 ^ 20) = .ok 111111111111111111111
    ∧ getSaleReturnSpec baseMarket true (10 ^ 20) = .ok 90909090909090909091
    ∧ (111111111111111111111 : Nat) ≠ 90909090909090909091
    ∧ (buyShares baseMarket 0 "alice" true 0 (10 ^ 42)).map (fun p => (p.1, p.2.yesPool)) =
      .ok (10 ^ 21, 0) := by
  decide

/-- C3 counterexample: a market resolved YES is not terminal — the
administrative `resolveInvalid` has no state guard and overwrites the YES
outcome with INVALID after normal resolution, contradicting the claim that
the override can be applied only before normal resolution and that resolved
outcomes never change. -/
theorem resolved_outcome_overwritten_by_resolveInvalid :
    c3AfterResolve.map (fun s => s.outcome) = .ok Outcome.YES
    ∧ c3AfterInvalid.map (fun s => s.outcome) = .ok Outcome.INVALID := by
  decide

/-- C3 amended: `resolve` alone treats every non-unresolved outcome as
terminal (it rejects with TooEarly or AlreadyResolved), but `resolveInvalid`
may be applied at ANY time — including after normal resolution — and always
forces the outcome to INVALID; INVALID itself can only be re-forced to
INVALID. -/
theorem outcome_machine_amended (s : State) (now price : Nat)
    (h : s.outcome ≠ Outcome.UNRESOLVED) :
    (resolve s now price = .error Err.TooEarly ∨
     resolve s now price = .error Err.AlreadyResolved)
    ∧ (resolveInvalid s).outcome = Outcome.INVALID
    ∧ ∀ t : State, (resolveInvalid t).outcome = Outcome.INVALID := by
  refine ⟨?_, rfl, fun t => rfl⟩
  by_cases hn : now < s.resolutionTimestamp
  · left; simp [resolve, hn]
  · right; simp [resolve, hn, h]

/-- Witness for the amended C3 at a concrete NO-resolved market. -/
theorem outcome_machine_amended_witness :
    (resolveInvalid cx3Resolved).outcome = Outcome.INVALID
    ∧ (resolve cx3Resolved 20 150 = .error Err.TooEarly ∨
       resolve cx3Resolved 20 150 = .error Err.AlreadyResolved) := by
  have h := outcome_machine_amended cx3Resolved 20 150 (by decide)
  exact ⟨h.2.1, h.1⟩

/-- C6: the claim says an immediate buy-then-sell round trip never pays out
more than the deposit.  Evaluating the code: on a market that already absorbed
one earlier `10^20` YES buy, Alice deposits `10^20`, receives
`75757575757575757576` YES shares, and selling exactly those shares at once
pays `120000000000000000000 > 10^20` — a profitable wash trade (and the pools
here are asymmetric, where the claim asserts a strict loss). -/
theorem round_trip_profitable :
    c6Run = .ok (75757575757575757576, 120000000000000000000)
    ∧ (10 ^ 20 : Nat) < 120000000000000000000 := by
  decide

/-- C7 counterexample: on an INVALID market with balance `10^20`, pools
`10^21/10^21`, and two holders of `5·10^19` shares each, the first redemption
pays `2500000000000000000` — not half the remaining balance
(`5·10^19`) — and the second holder then receives the strictly smaller
`2437500000000000000`, so equal holders do not each receive half. -/
theorem invalid_refund_not_half :
    (redeem cx7 "alice").map (fun pr => pr.1) = .ok 2500000000000000000
    ∧ (2500000000000000000 : Nat) ≠ cx7.balance / 2
    ∧ (redeem cx7After "bob").map (fun pr => pr.1) = .ok 2437500000000000000
    ∧ (2437500000000000000 : Nat) ≠ 2500000000000000000 := by
  decide

/-- C7 amended: an INVALID-outcome redemption pays
`holderShares * currentBalance / (yesPool + noPool)` where `currentBalance`
is the contract balance at the moment of that redemption (capped at the
balance); a holder receives exactly half of the then-remaining balance
precisely in the special case `2 * holderShares = yesPool + noPool`, so two
equal holders split the pot only against the successively shrinking balance,
not half-and-half of the original. -/
theorem invalid_refund_proportional_amended (s : State) (u : String) (t pay : Nat)
    (hout : s.outcome = Outcome.INVALID)
    (hpool : s.yesPool + s.noPool ≠ 0)
    (ht : t = (s.positions u).yesShares + (s.positions u).noShares)
    (hpay : pay = t * s.balance / (s.yesPool + s.noPool))
    (hpos : 0 < pay) :
    redeem s u = .ok ((if s.balance < pay then s.balance else pay),
      { s with
        positions := fun a => if a = u then ⟨0, 0⟩ else s.positions a
        balance := s.balance - (if s.balance < pay then s.balance else pay) })
    ∧ (2 * t = s.yesPool + s.noPool →
        (if s.balance < pay then s.balance else pay) = s.balance / 2) := by
  have hrp : redeemPayout s u = .ok pay := by
    simp only [redeemPayout, hout]
    rw [if_neg (by simp), if_pos trivial, if_neg hpool, ← ht, ← hpay]
  refine ⟨?_, ?_⟩
  · simp only [redeem, hrp]
    rw [if_neg (by omega)]
  · intro h2t
    have ht0 : 0 < t := by
      rcases Nat.eq_zero_or_pos t with h0 | h0
      · rw [h0] at hpay; simp at hpay; omega
      · exact h0
    have hhalf : pay = s.balance / 2 := by
      rw [hpay, ← h2t, Nat.mul_comm 2 t, Nat.mul_div_mul_left _ _ ht0]
    rw [hhalf, if_neg (Nat.not_lt.mpr (Nat.div_le_self _ _))]

/-- Witness for the amended C7: on `cx7Half` (one holder owning
`LIQUIDITY_PARAM` total shares, i.e. half of `yesPool + noPool`, balance 100)
the redemption pays exactly 50. -/
theorem invalid_refund_proportional_amended_witness :
    (redeem cx7Half "alice").map (fun pr => pr.1) = .ok 50 := by
  have h := invalid_refund_proportional_amended cx7Half "alice" LIQUIDITY_PARAM 50
    (by decide) (by decide) (by decide) (by decide) (by decide)
  rw [h.1]
  decide

/-- C9: on a YES-resolved market, the holder of `{yesShares: 5, noShares: 3}`
(with sufficient balance) redeems exactly 5 units, the position is cleared to
zero and the balance reduced by 5; redeeming again fails `NothingToRedeem`;
and in general any redemption whose computed payout is zero fails
`NothingToRedeem`. -/
theorem redeem_yes_exactly_once (s s2 : State) (h1 : s.outcome = Outcome.YES)
    (h2 : s.positions "holder" = ⟨5, 3⟩) (h3 : 5 ≤ s.balance)
    (hs2 : s2 = { s with
      positions := fun a => if a = "holder" then ⟨0, 0⟩ else s.positions a
      balance := s.balance - 5 }) :
    redeem s "holder" = .ok (5, s2)
    ∧ redeem s2 "holder" = .error Err.NothingToRedeem
    ∧ ∀ (t : State) (u : String), redeemPayout t u = .ok 0 →
        redeem t u = .error Err.NothingToRedeem := by
  have hpay : redeemPayout s "holder" = .ok 5 := by
    simp [redeemPayout, h1, h2]
  refine ⟨?_, ?_, ?_⟩
  · simp only [redeem, hpay]
    rw [if_neg (by norm_num), if_neg (by omega), hs2]
  · have hpay2 : redeemPayout s2 "holder" = .ok 0 := by
      simp [redeemPayout, hs2, h1]
    simp [redeem, hpay2]
  · intro t u hpt
    simp [redeem, hpt]

/-- Witness for C9 at the concrete market `cx9`. -/
theorem redeem_yes_exactly_once_witness :
    (redeem cx9 "holder").map (fun pr => pr.1) = .ok 5
    ∧ redeem { cx9 with
        positions := fun a => if a = "holder" then ⟨0, 0⟩ else cx9.positions a
        balance := cx9.balance - 5 } "holder" = .error Err.NothingToRedeem := by
  have h := redeem_yes_exactly_once cx9 _ (by decide) (by decide) (by decide) rfl
  refine ⟨?_, h.2.1⟩
  rw [h.1]
  rfl

/-- C10: the claim says a re-vote never duplicates an evaluator in the voter
accounting, including when the earlier recorded score was 0.  Evaluating the
contract code: recording conviction 0 and then 50 for the same agent pushes
the agent onto `convictionVoters` twice (the stored 0 is indistinguishable
from "never voted"), yielding voter count 2 for one distinct evaluator —
while the JavaScript registry's `Map`-based vote map correctly keeps a single
last-write-wins entry on the same sequence. -/
theorem conviction_zero_revote_duplicates_voter :
    c10Run.map (fun s => (s.convictionVoters, getAggregateConviction s)) =
      .ok (["sentinel", "sentinel"], 50, 2)
    ∧ (ConvictionMarket.mapSet
        (ConvictionMarket.mapSet [] "sentinel" (⟨0, "zero", 1⟩ : ConvictionMarket.Vote))
        "sentinel" ⟨50, "fifty", 2⟩).length = 1
    ∧ ConvictionMarket.mapGet
        (ConvictionMarket.mapSet
          (ConvictionMarket.mapSet [] "sentinel" (⟨0, "zero", 1⟩ : ConvictionMarket.Vote))
          "sentinel" ⟨50, "fifty", 2⟩) "sentinel" =
        some ⟨50, "fifty", 2⟩ := by
  decide

end Polis.PolisMarket

namespace Polis.SentinelAgent

/-- C8 counterexample: with the circuit breaker tripped, the first
SentinelAgent variant does NOT deterministically yield score 0 — for the
question "a" the content-seeded variance applied after the breaker raises the
recorded score to 1. -/
theorem breaker_score_not_zero :
    (assessV1 cx8st cx8data 0).1 = 1
    ∧ (assessV1 cx8st cx8data 0).1 ≠ 0
    ∧ (assessV1 cx8st cx8data 0).2 = "CIRCUIT BREAKER ACTIVE" := by
  decide

/-- C8 amended: while the breaker is tripped, the first variant zeroes the
score and fixes the rationale to "CIRCUIT BREAKER ACTIVE", but then adds the
content-seeded variance `((seed*11) % 9) - 4` and clamps at 0, so the vote
score is `max 0 (min 95 ((seed*11) % 9 - 4))` — between 0 and 4 and dependent
on the question text, not always exactly 0; the second variant does yield
exactly score 0 with the same fixed rationale. -/
theorem breaker_forces_fixed_low_score (st1 st2 : Sentinel) (d1 d2 : ProposalData)
    (n1 n2 : Nat) (h1 : st1.circuitBroken = true) (h2 : st2.circuitBroken = true) :
    (assessV1 st1 d1 n1).1 = max 0 (min 95 (((seedOf d1.question : Int) * 11) % 9 - 4))
    ∧ 0 ≤ (assessV1 st1 d1 n1).1
    ∧ (assessV1 st1 d1 n1).1 ≤ 4
    ∧ (assessV1 st1 d1 n1).2 = "CIRCUIT BREAKER ACTIVE"
    ∧ (assessV2 st2 d2 n2).1 = 0
    ∧ (assessV2 st2 d2 n2).2 = "CIRCUIT BREAKER ACTIVE" := by
  have e1 : assessV1 st1 d1 n1 =
      (max 0 (min 95 (0 + (((seedOf d1.question : Int) * 11) % 9 - 4))),
        Polis.jsTrim "CIRCUIT BREAKER ACTIVE") := by
    unfold assessV1
    rw [h1]
    rfl
  have e2 : assessV2 st2 d2 n2 = (0, Polis.jsTrim "CIRCUIT BREAKER ACTIVE") := by
    unfold assessV2
    rw [h2]
    rfl
  have htrim : Polis.jsTrim "CIRCUIT BREAKER ACTIVE" = "CIRCUIT BREAKER ACTIVE" := by decide
  have hm0 : 0 ≤ ((seedOf d1.question : Int) * 11) % 9 := Int.emod_nonneg _ (by norm_num)
  have hm9 : ((seedOf d1.question : Int) * 11) % 9 < 9 := Int.emod_lt_of_pos _ (by norm_num)
  refine ⟨?_, ?_, ?_, ?_, ?_, ?_⟩
  · rw [e1]; simp
  · rw [e1]; simp
  · rw [e1]; simp; omega
  · rw [e1, htrim]
  · rw [e2]
  · rw [e2, htrim]

/-- Witness for the amended C8 at the concrete tripped sentinel. -/
theorem breaker_forces_fixed_low_score_witness :
    (assessV1 cx8st cx8data 0).1 ≤ 4 ∧ (assessV2 cx8st cx8data 0).1 = 0 := by
  have h := breaker_forces_fixed_low_score cx8st cx8st cx8data cx8data 0 0 rfl rfl
  exact ⟨h.2.2.1, h.2.2.2.2.1⟩

end Polis.SentinelAgent
